import Mathlib

/-!
Verification development for the crime-reports provisioning notebook
(`Basics.ipynb`).  The notebook is a linear sequence of SQL statements
issued through a single cursor against a PostgreSQL server, plus one
pure Python helper `get_col_set`.  We embed:

* the Python helper `get_col_set` directly (CSV file contents are
  abstracted as the already-parsed list of rows, since file I/O is out
  of scope);
* the sequence of statements the notebook actually executes
  (`scriptStmts`), read off the `cursor.execute` / `cursor.copy_expert`
  calls in source order;
* the server-side semantics of those statements as a small state
  machine (`execStmt` / `runSteps`).  The server itself is not part of
  this repository, so its behaviour (duplicate-object errors, COPY
  atomicity, enum typing, privilege catalog) is modelled from the spec.
-/

namespace CrimeDb

/-! ### The Python helper `get_col_set` -/

/-- Evaluation of `f` over a list, stopping at the first failure; this is
the behaviour of the Python `for` loop in `get_col_set`, which raises at
the first out-of-range index. -/
def traverseOption (f : α → Option β) : List α → Option (List β)
  | [] => some []
  | a :: l =>
    match f a with
    | none => none
    | some b =>
      match traverseOption f l with
      | none => none
      | some bs => some (b :: bs)

/-- Embedding of `get_col_set(csv_filename, col_index)` from the notebook:
iterate over `file_list[1:]` (all rows after the header) and collect
`item[col_index]` into a set.  The CSV file is abstracted as its parsed
row list `rows`; Python's `item[col_index]` raises `IndexError` when the
row is too short, modelled by the `none` result. -/
def get_col_set (rows : List (List String)) (colIndex : Nat) : Option (Finset String) :=
  (traverseOption (fun item => item.get? colIndex) (rows.drop 1)).map List.toFinset

lemma traverseOption_get?_eq (i : Nat) :
    ∀ l : List (List String), (∀ item ∈ l, i < item.length) →
      traverseOption (fun item => item.get? i) l = some (l.map (fun item => item.getD i "")) := by
  intro l
  induction l with
  | nil => intro _; rfl
  | cons x xs ih =>
    intro h
    have hx : i < x.length := h x (List.mem_cons_self x xs)
    have hget : x.get? i = some (x.getD i "") := by
      rw [List.getD_eq_getElem?_getD, List.get?_eq_getElem?, List.getElem?_eq_getElem hx]
      rfl
    have hrest := ih (fun item hm => h item (List.mem_cons_of_mem x hm))
    simp only [traverseOption, hget, hrest, List.map_cons]

/-- C9: for every CSV row list whose data rows all have more than
`colIndex` fields, `get_col_set` returns exactly the set of distinct
values at position `colIndex` across all rows except the header, and
this set has at most as many elements as there are data rows. -/
theorem get_col_set_distinct_values (rows : List (List String)) (i : Nat)
    (h : ∀ item ∈ rows.drop 1, i < item.length) :
    ∃ S, get_col_set rows i = some S
      ∧ (∀ v, v ∈ S ↔ ∃ item ∈ rows.drop 1, item.get? i = some v)
      ∧ S.card ≤ (rows.drop 1).length := by
  refine ⟨((rows.drop 1).map (fun item => item.getD i "")).toFinset, ?_, ?_, ?_⟩
  · unfold get_col_set
    rw [traverseOption_get?_eq i (rows.drop 1) h]
    rfl
  · intro v
    rw [List.mem_toFinset, List.mem_map]
    constructor
    · rintro ⟨item, hm, hv⟩
      refine ⟨item, hm, ?_⟩
      have hx : i < item.length := h item hm
      rw [List.getD_eq_getElem?_getD, List.getElem?_eq_getElem hx] at hv
      rw [List.get?_eq_getElem?, List.getElem?_eq_getElem hx]
      simp only [Option.getD_some] at hv
      exact congrArg some hv
    · rintro ⟨item, hm, hv⟩
      refine ⟨item, hm, ?_⟩
      rw [List.getD_eq_getElem?_getD, ← List.get?_eq_getElem?, hv]
      rfl
  · calc ((rows.drop 1).map (fun item => item.getD i "")).toFinset.card
        ≤ ((rows.drop 1).map (fun item => item.getD i "")).length :=
          List.toFinset_card_le _
      _ = (rows.drop 1).length := List.length_map _ _

/-- Witness for C9 at a concrete three-row CSV (header plus two data
rows sharing one value). -/
theorem get_col_set_distinct_values_witness :
    ∃ S, get_col_set [["hdr"], ["x"], ["x"]] 0 = some S
      ∧ (∀ v, v ∈ S ↔ ∃ item ∈ List.drop 1 [["hdr"], ["x"], ["x"]], item.get? 0 = some v)
      ∧ S.card ≤ (List.drop 1 [["hdr"], ["x"], ["x"]]).length :=
  get_col_set_distinct_values [["hdr"], ["x"], ["x"]] 0 (by decide)

/-- C10: `get_col_set` indexes each data row without a bounds guard.
Under the precondition that every data row is longer than `colIndex`
the function is total (returns a set); on an input with a too-short
data row it fails with an indexing error instead of returning a set. -/
theorem get_col_set_no_bounds_guard :
    (∀ (rows : List (List String)) (i : Nat),
        (∀ item ∈ rows.drop 1, i < item.length) → (get_col_set rows i).isSome = true)
    ∧ get_col_set [["hdr"], ["only"]] 1 = none := by
  constructor
  · intro rows i h
    unfold get_col_set
    rw [traverseOption_get?_eq i (rows.drop 1) h]
    rfl
  · rfl

/-- Witness for C10: the totality part applied at a concrete in-bounds
input, alongside the concrete out-of-bounds failure. -/
theorem get_col_set_no_bounds_guard_witness :
    (get_col_set [["hdr"], ["x"]] 0).isSome = true
    ∧ get_col_set [["hdr"], ["only"]] 1 = none :=
  ⟨get_col_set_no_bounds_guard.1 [["hdr"], ["x"]] 0 (by decide),
   get_col_set_no_bounds_guard.2⟩

/-! ### Typed values and text-to-value conversion

Modelled from the spec: the server converts each CSV text field to the
declared column type during the bulk load; a field that does not fit
the type makes the load fail.  `DATE` values are calendar dates,
`NUMERIC(10, 8)` values are exact fixed-point decimals, held here as
the integer of hundred-millionths (`scaled / 10^8` is the decimal
value), never floating point. -/

/-- Numeric value of a decimal digit character, `none` for non-digits. -/
def digitVal (c : Char) : Option Nat :=
  if '0' ≤ c ∧ c ≤ '9' then some (c.toNat - '0'.toNat) else none

/-- Decimal value of a digit string, `none` at the first non-digit. -/
def natOfChars : List Char → Nat → Option Nat
  | [], acc => some acc
  | c :: cs, acc =>
    match digitVal c with
    | some d => natOfChars cs (acc * 10 + d)
    | none => none

/-- Decimal value of a non-empty digit string. -/
def natOfDigits (l : List Char) : Option Nat :=
  match l with
  | [] => none
  | _ => natOfChars l 0

/-- Parse an optionally negated decimal integer. -/
def intOfChars (l : List Char) : Option Int :=
  match l with
  | '-' :: rest => (natOfDigits rest).map (fun n => -(n : Int))
  | _ => (natOfDigits l).map (fun n => (n : Int))

/-- Conversion of a text field to an `INTEGER` column value: a decimal
integer within the 32-bit signed range. -/
def parseInt32 (s : String) : Option Int :=
  match intOfChars s.toList with
  | some n => if -(2 ^ 31) ≤ n ∧ n < 2 ^ 31 then some n else none
  | none => none

/-- Split a character list at every occurrence of `sep`. -/
def splitOnChar (sep : Char) : List Char → List (List Char)
  | [] => [[]]
  | c :: cs =>
    match splitOnChar sep cs with
    | [] => [[]]
    | g :: gs => if c = sep then [] :: g :: gs else (c :: g) :: gs

/-- A calendar date. -/
structure Date where
  year : Nat
  month : Nat
  day : Nat
deriving DecidableEq

/-- Conversion of a `YYYY-MM-DD` text field to a `DATE` column value. -/
def parseDate (s : String) : Option Date :=
  match splitOnChar '-' s.toList with
  | [y, m, d] =>
    match natOfDigits y, natOfDigits m, natOfDigits d with
    | some yn, some mn, some dn =>
      if 1 ≤ mn ∧ mn ≤ 12 ∧ 1 ≤ dn ∧ dn ≤ 31 then some ⟨yn, mn, dn⟩ else none
    | _, _, _ => none
  | _ => none

/-- Value of a fractional-digit string scaled to hundred-millionths; the
data loaded by the notebook always has exactly eight fractional digits,
and `NUMERIC(10, 8)` keeps eight fractional digits. -/
def fracOfChars (l : List Char) : Option Nat :=
  if l.length ≤ 8 then (natOfChars l 0).map (fun n => n * 10 ^ (8 - l.length)) else none

/-- Magnitude of an unsigned fixed-point decimal in hundred-millionths. -/
def parseNumericMag (l : List Char) : Option Nat :=
  match l.span (fun c => c ≠ '.') with
  | (ip, rest) =>
    let fr := rest.drop 1
    if ip = [] ∧ fr = [] then none
    else
      match natOfChars ip 0, fracOfChars fr with
      | some ipn, some frn =>
        if ipn < 100 then some (ipn * 10 ^ 8 + frn) else none
      | _, _ => none

/-- Conversion of a text field to a `NUMERIC(10, 8)` column value: at
most two integer digits (ten total digits, eight fractional), returned
as the exact integer of hundred-millionths. -/
def parseNumeric (s : String) : Option Int :=
  match s.toList with
  | '-' :: rest => (parseNumericMag rest).map (fun n => -(n : Int))
  | l => (parseNumericMag l).map (fun n => (n : Int))

/-- Conversion of a text field to a `VARCHAR(n)` column value: the text
itself, rejected when longer than `n`. -/
def parseVarchar (n : Nat) (s : String) : Option String :=
  if s.length ≤ n then some s else none

/-- Labels of the enumerated type `day_of_week`, in the order they are
listed in the notebook's `CREATE TYPE day_of_week AS ENUM` statement. -/
def dayOfWeekLabels : List String :=
  ["Monday", "Tuesday", "Wednesday", "Thursday", "Friday", "Saturday", "Sunday"]

/-- Conversion of a text field to a `day_of_week` column value: the text
itself when it is one of the seven labels, rejected otherwise. -/
def parseDayOfWeek (s : String) : Option String :=
  if s ∈ dayOfWeekLabels then some s else none

/-- A row of `crimes.boston_crimes`, with each column at its declared
type; `latitude` and `longitude` are exact `NUMERIC(10, 8)` values in
hundred-millionths. -/
structure CrimeRow where
  incident_number : Int
  offense_code : Int
  description : String
  date : Date
  day_of_the_week : String
  latitude : Int
  longitude : Int
deriving DecidableEq

/-- Conversion of one CSV data row to a typed table row, matching the
seven columns positionally; any field that does not fit its column type
makes the whole row (and hence the bulk load) fail. -/
def parseCrimeRow (fields : List String) : Option CrimeRow :=
  match fields with
  | [a, b, c, d, e, f, g] =>
    match parseInt32 a, parseInt32 b, parseVarchar 58 c, parseDate d,
        parseDayOfWeek e, parseNumeric f, parseNumeric g with
    | some i, some o, some dsc, some dt, some dw, some la, some lo =>
      some ⟨i, o, dsc, dt, dw, la, lo⟩
    | _, _, _, _, _, _, _ => none
  | _ => none

/-- Header row of `boston.csv` as printed by the notebook. -/
def headerRow : List String :=
  ["incident_number", "offense_code", "description", "date", "day_of_the_week", "lat", "long"]

/-- First data row of `boston.csv` as printed by the notebook. -/
def sampleRowFields : List String :=
  ["1", "619", "LARCENY ALL OTHERS", "2018-09-02", "Sunday", "42.35779134", "-71.13937053"]

/-- The typed value of `sampleRowFields`, as returned by the notebook's
verification `SELECT` (cell 13). -/
def sampleCrimeRow : CrimeRow :=
  ⟨1, 619, "LARCENY ALL OTHERS", ⟨2018, 9, 2⟩, "Sunday", 4235779134, -7113937053⟩

example : parseCrimeRow sampleRowFields = some sampleCrimeRow := by decide

/-! ### The statements the notebook issues -/

/-- Column type in a `CREATE TABLE` statement. -/
inductive SqlType where
  | integer : SqlType
  | varchar : Nat → SqlType
  | date : SqlType
  | enum : String → SqlType
  | numeric : Nat → Nat → SqlType
deriving DecidableEq

/-- Column declaration in a `CREATE TABLE` statement. -/
structure Column where
  name : String
  type : SqlType
  primaryKey : Bool
deriving DecidableEq

/-- The column list of the notebook's `CREATE TABLE crimes.boston_crimes`
statement (cell 11), in source order. -/
def bostonCrimesColumns : List Column :=
  [⟨"incident_number", .integer, true⟩,
   ⟨"offense_code", .integer, false⟩,
   ⟨"description", .varchar 58, false⟩,
   ⟨"date", .date, false⟩,
   ⟨"day_of_the_week", .enum "day_of_week", false⟩,
   ⟨"latitude", .numeric 10 8, false⟩,
   ⟨"longitude", .numeric 10 8, false⟩]

/-- A statement sent to the server, one constructor per statement shape
appearing in the notebook, the commented-out `CREATE DATABASE` and
`CREATE SCHEMA` included so that their absence from the issued sequence
can be stated. -/
inductive Stmt where
  | createDatabase : String → Stmt
  | createSchema : String → Stmt
  | createType : String → List String → Stmt
  | createTable : String → String → List Column → Stmt
  | copyCsv : String → String → List (List String) → Stmt
  | selectLimit : String → String → Nat → Stmt
  | revokeAllOnSchema : String → String → Stmt
  | revokeAllOnDatabase : String → String → Stmt
  | createGroup : String → Stmt
  | grantConnect : String → String → Stmt
  | grantUsage : String → String → Stmt
  | grantOnAllTables : List String → String → String → Stmt
  | createUser : String → String → Stmt
  | grantRole : String → String → Stmt
  | selectTablePrivileges : List String → Stmt
deriving DecidableEq

/-- The shape of a statement, forgetting its arguments. -/
inductive StmtKind where
  | createDatabase | createSchema | createType | createTable | copyCsv
  | selectLimit | revokeAllOnSchema | revokeAllOnDatabase | createGroup
  | grantConnect | grantUsage | grantOnAllTables | createUser | grantRole
  | selectTablePrivileges
deriving DecidableEq

/-- Shape of a statement. -/
def stmtKindOf : Stmt → StmtKind
  | .createDatabase _ => .createDatabase
  | .createSchema _ => .createSchema
  | .createType _ _ => .createType
  | .createTable _ _ _ => .createTable
  | .copyCsv _ _ _ => .copyCsv
  | .selectLimit _ _ _ => .selectLimit
  | .revokeAllOnSchema _ _ => .revokeAllOnSchema
  | .revokeAllOnDatabase _ _ => .revokeAllOnDatabase
  | .createGroup _ => .createGroup
  | .grantConnect _ _ => .grantConnect
  | .grantUsage _ _ => .grantUsage
  | .grantOnAllTables _ _ _ => .grantOnAllTables
  | .createUser _ _ => .createUser
  | .grantRole _ _ => .grantRole
  | .selectTablePrivileges _ => .selectTablePrivileges

/-- Server error conditions surfaced to the script (the notebook catches
none of them). -/
inductive DbError where
  | duplicateObject | duplicateTable | undefinedObject | undefinedTable
  | uniqueViolation | invalidTextRepresentation
deriving DecidableEq

/-! ### Server state and statement semantics

Modelled from the spec: the relational server is an external system, so
its observable behaviour (duplicate-object errors, transactional COPY,
privilege bookkeeping, the `information_schema.table_privileges`
catalog) is modelled here from the spec's description of it. -/

/-- Observable server state: created objects, the contents of
`crimes.boston_crimes`, and recorded privileges.  `tablePrivs` holds one
entry per (table, grantee, privilege) as reported by the
`information_schema.table_privileges` catalog. -/
structure ServerState where
  databases : List String
  schemas : List String
  types : List String
  tables : List (String × String)
  rows : List CrimeRow
  roles : List String
  memberships : List (String × String)
  tablePrivs : List ((String × String) × String × String)
  connectGrants : List (String × String)
  usageGrants : List (String × String)
  publicSchemaPrivs : List String
  publicDbPrivs : List String
deriving DecidableEq

/-- Server state the notebook expects at the start of a run: `crime_db`
and schema `crimes` exist (created in the earlier, now commented-out
run), the implicit public role still holds its default privileges, and
nothing the script creates exists yet. -/
def cleanServer : ServerState :=
  { databases := ["postgres", "crime_db"]
  , schemas := ["public", "crimes"]
  , types := []
  , tables := []
  , rows := []
  , roles := []
  , memberships := []
  , tablePrivs := []
  , connectGrants := []
  , usageGrants := []
  , publicSchemaPrivs := ["CREATE", "USAGE"]
  , publicDbPrivs := ["CONNECT", "TEMPORARY"] }

/-- Modelled from the spec: the server's transactional `COPY ... WITH
CSV HEADER` bulk load.  The header row is skipped, every data row is
converted to the column types, and the whole load succeeds or fails as
one unit: a type mismatch or a duplicate `incident_number` (the primary
key) makes the load fail with no rows added. -/
def copyLoad (existing : List CrimeRow) (csv : List (List String)) :
    Except DbError (List CrimeRow) :=
  match traverseOption parseCrimeRow (csv.drop 1) with
  | none => .error .invalidTextRepresentation
  | some newRows =>
    if ((existing ++ newRows).map CrimeRow.incident_number).Nodup then
      .ok (existing ++ newRows)
    else .error .uniqueViolation

/-- Modelled from the spec: the server's handling of one statement.
Creating an object that already exists fails with a duplicate-object
error; referring to a missing object fails with an undefined-object
error; grants record privileges; the two revokes clear the implicit
public role's default privileges. -/
def execStmt (s : ServerState) : Stmt → Except DbError ServerState
  | .createDatabase db =>
    if db ∈ s.databases then .error .duplicateObject
    else .ok { s with databases := s.databases ++ [db] }
  | .createSchema sc =>
    if sc ∈ s.schemas then .error .duplicateObject
    else .ok { s with schemas := s.schemas ++ [sc] }
  | .createType ty _ =>
    if ty ∈ s.types then .error .duplicateObject
    else .ok { s with types := s.types ++ [ty] }
  | .createTable sc tbl cols =>
    if (sc, tbl) ∈ s.tables then .error .duplicateTable
    else if sc ∉ s.schemas then .error .undefinedObject
    else if cols.any (fun c =>
        match c.type with
        | .enum ty => !(s.types.contains ty)
        | _ => false) then .error .undefinedObject
    else .ok { s with tables := s.tables ++ [(sc, tbl)], rows := [] }
  | .copyCsv sc tbl csv =>
    if (sc, tbl) ∈ s.tables then
      match copyLoad s.rows csv with
      | .ok r => .ok { s with rows := r }
      | .error e => .error e
    else .error .undefinedTable
  | .selectLimit sc tbl _ =>
    if (sc, tbl) ∈ s.tables then .ok s else .error .undefinedTable
  | .revokeAllOnSchema sc g =>
    if sc ∈ s.schemas then
      .ok { s with publicSchemaPrivs :=
              if sc = "public" ∧ g = "public" then [] else s.publicSchemaPrivs }
    else .error .undefinedObject
  | .revokeAllOnDatabase db g =>
    if db ∈ s.databases then
      .ok { s with publicDbPrivs :=
              if db = "crime_db" ∧ g = "public" then [] else s.publicDbPrivs }
    else .error .undefinedObject
  | .createGroup g =>
    if g ∈ s.roles then .error .duplicateObject
    else .ok { s with roles := s.roles ++ [g] }
  | .grantConnect db g =>
    if db ∈ s.databases then
      if g ∈ s.roles then .ok { s with connectGrants := s.connectGrants ++ [(db, g)] }
      else .error .undefinedObject
    else .error .undefinedObject
  | .grantUsage sc g =>
    if sc ∈ s.schemas then
      if g ∈ s.roles then .ok { s with usageGrants := s.usageGrants ++ [(sc, g)] }
      else .error .undefinedObject
    else .error .undefinedObject
  | .grantOnAllTables privs sc g =>
    if sc ∈ s.schemas then
      if g ∈ s.roles then
        let added := (s.tables.filter (fun t => t.1 = sc)).flatMap
          (fun t => privs.map (fun p => (t, g, p)))
        .ok { s with tablePrivs := s.tablePrivs ++ added }
      else .error .undefinedObject
    else .error .undefinedObject
  | .createUser u _ =>
    if u ∈ s.roles then .error .duplicateObject
    else .ok { s with roles := s.roles ++ [u] }
  | .grantRole r u =>
    if r ∈ s.roles then
      if u ∈ s.roles then .ok { s with memberships := s.memberships ++ [(u, r)] }
      else .error .undefinedObject
    else .error .undefinedObject
  | .selectTablePrivileges _ => .ok s

/-- Run a statement list in order through the single shared cursor,
stopping at the first server error (the notebook has no try/except):
returns the statements actually issued and the outcome. -/
def runSteps (s : ServerState) : List Stmt → List Stmt × Except DbError ServerState
  | [] => ([], .ok s)
  | st :: rest =>
    match execStmt s st with
    | .error e => ([st], .error e)
    | .ok s' =>
      let p := runSteps s' rest
      (st :: p.1, p.2)

/-- Server states reached while running a statement list, the initial
state included; a failed statement leaves the state unchanged and ends
the run. -/
def traceStates (s : ServerState) : List Stmt → List ServerState
  | [] => [s]
  | st :: rest =>
    match execStmt s st with
    | .ok s' => s :: traceStates s' rest
    | .error _ => [s]

/-- Server state observed after one statement: the new state on
success, the unchanged prior state on error. -/
def stateAfter (s : ServerState) (st : Stmt) : ServerState :=
  match execStmt s st with
  | .ok s' => s'
  | .error _ => s

/-- Result rows of `SELECT * FROM crimes.boston_crimes LIMIT n`. -/
def selectLimitRows (s : ServerState) (n : Nat) : List CrimeRow :=
  s.rows.take n

/-- Result rows of the notebook's catalog verification query (cell 17):
`SELECT grantee, privilege_type FROM information_schema.table_privileges
WHERE grantee = 'readwrite' OR grantee = 'readonly'`. -/
def privQueryRows (s : ServerState) : List (String × String) :=
  (s.tablePrivs.filter (fun q => q.2.1 = "readwrite" ∨ q.2.1 = "readonly")).map
    (fun q => (q.2.1, q.2.2))

/-- Whether an `Except` result is a success. -/
def isOkB : Except ε α → Bool
  | .ok _ => true
  | .error _ => false

/-- The statement sequence the notebook actually issues on a run, read
off the executed `cursor.execute` / `cursor.copy_expert` calls in
source order (cells 10-17); the CSV file contents are the parameter
`csv`.  The `CREATE DATABASE` and `CREATE SCHEMA` statements of cells
2-3 are commented out in the source and therefore absent. -/
def scriptStmts (csv : List (List String)) : List Stmt :=
  [ .createType "day_of_week" dayOfWeekLabels
  , .createTable "crimes" "boston_crimes" bostonCrimesColumns
  , .copyCsv "crimes" "boston_crimes" csv
  , .selectLimit "crimes" "boston_crimes" 5
  , .revokeAllOnSchema "public" "public"
  , .revokeAllOnDatabase "crime_db" "public"
  , .createGroup "readonly"
  , .createGroup "readwrite"
  , .grantConnect "crime_db" "readonly"
  , .grantConnect "crime_db" "readwrite"
  , .grantUsage "crimes" "readonly"
  , .grantUsage "crimes" "readwrite"
  , .grantOnAllTables ["SELECT"] "crimes" "readonly"
  , .grantOnAllTables ["SELECT", "INSERT", "DELETE", "UPDATE"] "crimes" "readwrite"
  , .createUser "data_analyst" "secret1"
  , .grantRole "readonly" "data_analyst"
  , .createUser "data_scientist" "secret2"
  , .grantRole "readwrite" "data_scientist"
  , .selectTablePrivileges ["readwrite", "readonly"]
  ]

/-- The shapes of the issued statements, in order. -/
def scriptKinds : List StmtKind :=
  [.createType, .createTable, .copyCsv, .selectLimit,
   .revokeAllOnSchema, .revokeAllOnDatabase,
   .createGroup, .createGroup, .grantConnect, .grantConnect,
   .grantUsage, .grantUsage, .grantOnAllTables, .grantOnAllTables,
   .createUser, .grantRole, .createUser, .grantRole,
   .selectTablePrivileges]

/-- A two-row CSV file: the printed header row and first data row of
`boston.csv`. -/
def sampleCsv : List (List String) := [headerRow, sampleRowFields]

/-- C4: the create-table statement defines `crimes.boston_crimes` with
exactly the seven columns of the spec, in order, with their types;
`incident_number` is the one primary-key column. -/
theorem boston_crimes_table_columns :
    bostonCrimesColumns.map Column.name =
      ["incident_number", "offense_code", "description", "date",
       "day_of_the_week", "latitude", "longitude"]
    ∧ bostonCrimesColumns.map Column.type =
      [.integer, .integer, .varchar 58, .date, .enum "day_of_week",
       .numeric 10 8, .numeric 10 8]
    ∧ (bostonCrimesColumns.filter (fun c => c.primaryKey)).map Column.name =
      ["incident_number"] :=
  ⟨rfl, rfl, rfl⟩

/-! ### Running the whole script -/

/-- Server state after the create-type and create-table statements of a
run that starts from `cleanServer`. -/
def preCopyServer : ServerState :=
  { cleanServer with
      types := ["day_of_week"]
    , tables := [("crimes", "boston_crimes")] }

/-- The statements issued after the bulk load. -/
def postStmts : List Stmt := (scriptStmts []).drop 3

/-- Server state at the end of a successful run from `cleanServer`,
with `r` the rows produced by the bulk load. -/
def scriptFinal (r : List CrimeRow) : ServerState :=
  { databases := ["postgres", "crime_db"]
  , schemas := ["public", "crimes"]
  , types := ["day_of_week"]
  , tables := [("crimes", "boston_crimes")]
  , rows := r
  , roles := ["readonly", "readwrite", "data_analyst", "data_scientist"]
  , memberships := [("data_analyst", "readonly"), ("data_scientist", "readwrite")]
  , tablePrivs :=
      [(("crimes", "boston_crimes"), "readonly", "SELECT"),
       (("crimes", "boston_crimes"), "readwrite", "SELECT"),
       (("crimes", "boston_crimes"), "readwrite", "INSERT"),
       (("crimes", "boston_crimes"), "readwrite", "DELETE"),
       (("crimes", "boston_crimes"), "readwrite", "UPDATE")]
  , connectGrants := [("crime_db", "readonly"), ("crime_db", "readwrite")]
  , usageGrants := [("crimes", "readonly"), ("crimes", "readwrite")]
  , publicSchemaPrivs := []
  , publicDbPrivs := [] }

lemma runSteps_post (r : List CrimeRow) :
    runSteps { preCopyServer with rows := r } postStmts = (postStmts, .ok (scriptFinal r)) := rfl

lemma execStmt_copy_eq (csv : List (List String)) :
    execStmt preCopyServer (.copyCsv "crimes" "boston_crimes" csv) =
      (match copyLoad [] csv with
       | .ok r => .ok { preCopyServer with rows := r }
       | .error e => .error e) := rfl

lemma runSteps_script_ok (csv : List (List String)) (r : List CrimeRow)
    (hc : copyLoad [] csv = .ok r) :
    runSteps cleanServer (scriptStmts csv) = (scriptStmts csv, .ok (scriptFinal r)) := by
  have hcopy : execStmt preCopyServer (.copyCsv "crimes" "boston_crimes" csv) =
      .ok { preCopyServer with rows := r } := by
    rw [execStmt_copy_eq, hc]
  have hmid : runSteps preCopyServer (.copyCsv "crimes" "boston_crimes" csv :: postStmts) =
      (.copyCsv "crimes" "boston_crimes" csv :: postStmts, .ok (scriptFinal r)) := by
    show (match execStmt preCopyServer (Stmt.copyCsv "crimes" "boston_crimes" csv) with
          | .error e => ([Stmt.copyCsv "crimes" "boston_crimes" csv], Except.error e)
          | .ok s' =>
            let p := runSteps s' postStmts
            (Stmt.copyCsv "crimes" "boston_crimes" csv :: p.1, p.2)) = _
    rw [hcopy]
    show (Stmt.copyCsv "crimes" "boston_crimes" csv ::
            (runSteps { preCopyServer with rows := r } postStmts).1,
          (runSteps { preCopyServer with rows := r } postStmts).2) = _
    rw [runSteps_post r]
  calc runSteps cleanServer (scriptStmts csv)
      = (Stmt.createType "day_of_week" dayOfWeekLabels ::
          Stmt.createTable "crimes" "boston_crimes" bostonCrimesColumns ::
          (runSteps preCopyServer (.copyCsv "crimes" "boston_crimes" csv :: postStmts)).1,
        (runSteps preCopyServer (.copyCsv "crimes" "boston_crimes" csv :: postStmts)).2) := rfl
    _ = (scriptStmts csv, .ok (scriptFinal r)) := by rw [hmid]; exact rfl

lemma runSteps_script_err (csv : List (List String)) (e : DbError)
    (hc : copyLoad [] csv = .error e) :
    runSteps cleanServer (scriptStmts csv) = ((scriptStmts csv).take 3, .error e) := by
  have hcopy : execStmt preCopyServer (.copyCsv "crimes" "boston_crimes" csv) = .error e := by
    rw [execStmt_copy_eq, hc]
  have hmid : runSteps preCopyServer (.copyCsv "crimes" "boston_crimes" csv :: postStmts) =
      ([.copyCsv "crimes" "boston_crimes" csv], .error e) := by
    show (match execStmt preCopyServer (Stmt.copyCsv "crimes" "boston_crimes" csv) with
          | .error e => ([Stmt.copyCsv "crimes" "boston_crimes" csv], Except.error e)
          | .ok s' =>
            let p := runSteps s' postStmts
            (Stmt.copyCsv "crimes" "boston_crimes" csv :: p.1, p.2)) = _
    rw [hcopy]
  calc runSteps cleanServer (scriptStmts csv)
      = (Stmt.createType "day_of_week" dayOfWeekLabels ::
          Stmt.createTable "crimes" "boston_crimes" bostonCrimesColumns ::
          (runSteps preCopyServer (.copyCsv "crimes" "boston_crimes" csv :: postStmts)).1,
        (runSteps preCopyServer (.copyCsv "crimes" "boston_crimes" csv :: postStmts)).2) := rfl
    _ = ((scriptStmts csv).take 3, .error e) := by rw [hmid]; exact rfl

/-- Server state at the end of a run from `cleanServer`; on a failed run
this falls back to `cleanServer` (the theorems using it always assume a
successful run). -/
def finalState (csv : List (List String)) : ServerState :=
  match (runSteps cleanServer (scriptStmts csv)).2 with
  | .ok s => s
  | .error _ => cleanServer

/-- C1: after the provisioning statements run successfully, the catalog
verification query returns exactly the pairs (readonly, SELECT) and
(readwrite, SELECT/INSERT/UPDATE/DELETE), and no others. -/
theorem privileges_after_provisioning (csv : List (List String))
    (h : isOkB (runSteps cleanServer (scriptStmts csv)).2 = true) :
    ∀ g p, (g, p) ∈ privQueryRows (finalState csv) ↔
      ((g = "readonly" ∧ p = "SELECT") ∨
       (g = "readwrite" ∧ (p = "SELECT" ∨ p = "INSERT" ∨ p = "UPDATE" ∨ p = "DELETE"))) := by
  cases hc : copyLoad [] csv with
  | error e =>
    rw [runSteps_script_err csv e hc] at h
    simp [isOkB] at h
  | ok r =>
    have hrun := runSteps_script_ok csv r hc
    intro g p
    have hfin : finalState csv = scriptFinal r := by
      unfold finalState
      rw [hrun]
    have hq : privQueryRows (scriptFinal r) =
        [("readonly", "SELECT"), ("readwrite", "SELECT"), ("readwrite", "INSERT"),
         ("readwrite", "DELETE"), ("readwrite", "UPDATE")] := rfl
    rw [hfin, hq]
    simp only [List.mem_cons, List.not_mem_nil, or_false, Prod.mk.injEq]
    constructor
    · rintro (⟨hg, hp⟩ | ⟨hg, hp⟩ | ⟨hg, hp⟩ | ⟨hg, hp⟩ | ⟨hg, hp⟩) <;> subst hg <;> subst hp <;>
        simp
    · rintro (⟨hg, hp⟩ | ⟨hg, hp | hp | hp | hp⟩) <;> subst hg <;> subst hp <;> simp

/-- Witness for C1: a successful concrete run from the clean server on
the two-row sample CSV, instantiated at the pair (readonly, SELECT). -/
theorem privileges_after_provisioning_witness :
    isOkB (runSteps cleanServer (scriptStmts sampleCsv)).2 = true
    ∧ (("readonly", "SELECT") ∈ privQueryRows (finalState sampleCsv) ↔
        ((("readonly" : String) = "readonly" ∧ ("SELECT" : String) = "SELECT") ∨
         (("readonly" : String) = "readwrite" ∧
           (("SELECT" : String) = "SELECT" ∨ ("SELECT" : String) = "INSERT" ∨
            ("SELECT" : String) = "UPDATE" ∨ ("SELECT" : String) = "DELETE")))) :=
  ⟨rfl, privileges_after_provisioning sampleCsv rfl "readonly" "SELECT"⟩

/-- C2 counterexample: on a concrete run, the issued statement sequence
contains neither a create-database nor a create-schema statement (both
appear only commented out in the source). -/
theorem no_create_database_or_schema_issued :
    ¬ ∃ st ∈ scriptStmts sampleCsv,
        stmtKindOf st = StmtKind.createDatabase ∨ stmtKindOf st = StmtKind.createSchema := by
  decide

/-- C2 (amended): on every run the issued statement sequence has the
nineteen shapes of `scriptKinds` and includes no create-database and no
create-schema statement; those two statements appear only as comments
in the source. -/
theorem issued_statements_lack_create_database_schema (csv : List (List String)) :
    (scriptStmts csv).map stmtKindOf = scriptKinds
    ∧ StmtKind.createDatabase ∉ (scriptStmts csv).map stmtKindOf
    ∧ StmtKind.createSchema ∉ (scriptStmts csv).map stmtKindOf := by
  have hm : (scriptStmts csv).map stmtKindOf = scriptKinds := rfl
  exact ⟨hm, by rw [hm]; decide, by rw [hm]; decide⟩

/-! ### Sequencing: the trace of issued statements -/

lemma runSteps_cons_err {s : ServerState} {st : Stmt} {e : DbError}
    (h : execStmt s st = .error e) (rest : List Stmt) :
    runSteps s (st :: rest) = ([st], .error e) := by
  simp only [runSteps, h]

lemma runSteps_cons_ok {s s' : ServerState} {st : Stmt}
    (h : execStmt s st = .ok s') (rest : List Stmt) :
    runSteps s (st :: rest) = (st :: (runSteps s' rest).1, (runSteps s' rest).2) := by
  simp only [runSteps, h]

lemma runSteps_trace_take (stmts : List Stmt) :
    ∀ s : ServerState, (runSteps s stmts).1 = stmts.take (runSteps s stmts).1.length := by
  induction stmts with
  | nil => intro s; rfl
  | cons st rest ih =>
    intro s
    cases hexec : execStmt s st with
    | error e => rw [runSteps_cons_err hexec rest]; rfl
    | ok s' =>
      rw [runSteps_cons_ok hexec rest]
      simp only [List.length_cons, List.take_succ_cons]
      exact congrArg (st :: ·) (ih s')

lemma runSteps_ok_trace (stmts : List Stmt) :
    ∀ (s fin : ServerState), (runSteps s stmts).2 = .ok fin →
      (runSteps s stmts).1 = stmts := by
  induction stmts with
  | nil => intro s fin _; rfl
  | cons st rest ih =>
    intro s fin h
    cases hexec : execStmt s st with
    | error e =>
      rw [runSteps_cons_err hexec rest] at h
      exact absurd h (by simp)
    | ok s' =>
      rw [runSteps_cons_ok hexec rest] at h ⊢
      exact congrArg (st :: ·) (ih s' fin h)

lemma runSteps_err_stops (stmts : List Stmt) :
    ∀ (s : ServerState) (e : DbError), (runSteps s stmts).2 = .error e →
      ∃ k, k < stmts.length ∧ (runSteps s stmts).1 = stmts.take (k + 1) := by
  induction stmts with
  | nil => intro s e h; exact absurd h (by simp [runSteps])
  | cons st rest ih =>
    intro s e h
    cases hexec : execStmt s st with
    | error e' =>
      refine ⟨0, Nat.succ_pos _, ?_⟩
      rw [runSteps_cons_err hexec rest]
      rfl
    | ok s' =>
      rw [runSteps_cons_ok hexec rest] at h ⊢
      obtain ⟨k, hk, ht⟩ := ih s' e h
      exact ⟨k + 1, Nat.succ_lt_succ hk, by rw [List.take_succ_cons, ht]⟩

/-- C7: the script issues its statements strictly in the required
order — for any CSV contents and any starting server state, the issued
trace is an order-preserving prefix of the fixed nineteen-statement
sequence (whose shapes are `scriptKinds`); a fully successful run
issues all of them, and a run that hits a server error stops at the
failing statement, issuing nothing after it (no retry, no catch). -/
theorem script_sequential_halt (csv : List (List String)) (s : ServerState) :
    (scriptStmts csv).map stmtKindOf = scriptKinds
    ∧ (runSteps s (scriptStmts csv)).1 =
        (scriptStmts csv).take (runSteps s (scriptStmts csv)).1.length
    ∧ (∀ fin, (runSteps s (scriptStmts csv)).2 = .ok fin →
        (runSteps s (scriptStmts csv)).1 = scriptStmts csv)
    ∧ (∀ e, (runSteps s (scriptStmts csv)).2 = .error e →
        ∃ k, k < (scriptStmts csv).length ∧
          (runSteps s (scriptStmts csv)).1 = (scriptStmts csv).take (k + 1)) :=
  ⟨rfl, runSteps_trace_take (scriptStmts csv) s,
   fun fin => runSteps_ok_trace (scriptStmts csv) s fin,
   fun e => runSteps_err_stops (scriptStmts csv) s e⟩

/-- Server state in which the enum type already exists, so that the very
first statement of a re-run fails with a duplicate-object error. -/
def dupTypeServer : ServerState := { cleanServer with types := ["day_of_week"] }

/-- Witness for C7: a successful concrete run issues all statements, and
a re-run against a server that already has the enum type stops at the
first statement. -/
theorem script_sequential_halt_witness :
    (runSteps cleanServer (scriptStmts sampleCsv)).1 = scriptStmts sampleCsv
    ∧ ∃ k, k < (scriptStmts sampleCsv).length ∧
        (runSteps dupTypeServer (scriptStmts sampleCsv)).1 = (scriptStmts sampleCsv).take (k + 1) :=
  ⟨(script_sequential_halt sampleCsv cleanServer).2.2.1 (scriptFinal [sampleCrimeRow]) rfl,
   (script_sequential_halt sampleCsv dupTypeServer).2.2.2 DbError.duplicateObject rfl⟩

/-! ### The primary-key invariant -/

lemma copyLoad_ok_nodup {ex : List CrimeRow} {csv : List (List String)} {r : List CrimeRow}
    (h : copyLoad ex csv = .ok r) :
    (r.map CrimeRow.incident_number).Nodup := by
  unfold copyLoad at h
  cases ht : traverseOption parseCrimeRow (csv.drop 1) with
  | none => rw [ht] at h; exact absurd h (by simp)
  | some newRows =>
    rw [ht] at h
    have h' : (if ((ex ++ newRows).map CrimeRow.incident_number).Nodup then
        Except.ok (ex ++ newRows) else Except.error DbError.uniqueViolation) =
        Except.ok r := h
    split at h'
    · injection h' with he
      exact he ▸ (by assumption)
    · exact absurd h' (by simp)

lemma execStmt_preserves_nodup {s s' : ServerState} {st : Stmt}
    (h : execStmt s st = .ok s')
    (hn : (s.rows.map CrimeRow.incident_number).Nodup) :
    (s'.rows.map CrimeRow.incident_number).Nodup := by
  cases st <;> simp only [execStmt] at h <;> repeat' split at h
  all_goals try (exact Except.noConfusion h)
  all_goals try (injection h with h'; subst h')
  case copyCsv.isTrue.h_1 =>
    rename_i hcl
    exact copyLoad_ok_nodup hcl
  all_goals first
    | exact hn
    | simp

lemma traceStates_nodup (stmts : List Stmt) :
    ∀ s : ServerState, (s.rows.map CrimeRow.incident_number).Nodup →
      ∀ s' ∈ traceStates s stmts, (s'.rows.map CrimeRow.incident_number).Nodup := by
  induction stmts with
  | nil =>
    intro s hn s' hs'
    simp only [traceStates, List.mem_singleton] at hs'
    exact hs' ▸ hn
  | cons st rest ih =>
    intro s hn s' hs'
    cases hexec : execStmt s st with
    | ok s1 =>
      have heq : traceStates s (st :: rest) = s :: traceStates s1 rest := by
        simp only [traceStates, hexec]
      rw [heq] at hs'
      rcases List.mem_cons.mp hs' with h1 | h2
      · exact h1 ▸ hn
      · exact ih s1 (execStmt_preserves_nodup hexec hn) s' h2
    | error e =>
      have heq : traceStates s (st :: rest) = [s] := by
        simp only [traceStates, hexec]
      rw [heq] at hs'
      simp only [List.mem_singleton] at hs'
      exact hs' ▸ hn

/-- C6: in every server state reachable by running the script's
statements from the clean server — before, between and after the
create-table, bulk-load and privilege steps — no two rows of
`crimes.boston_crimes` share an `incident_number`. -/
theorem incident_number_unique_invariant (csv : List (List String)) (s' : ServerState)
    (hs : s' ∈ traceStates cleanServer (scriptStmts csv)) :
    (s'.rows.map CrimeRow.incident_number).Nodup :=
  traceStates_nodup (scriptStmts csv) cleanServer (by simp [cleanServer]) s' hs

/-- Witness for C6 at the initial state of a concrete run. -/
theorem incident_number_unique_invariant_witness :
    (cleanServer.rows.map CrimeRow.incident_number).Nodup :=
  incident_number_unique_invariant sampleCsv cleanServer (List.mem_cons_self _ _)

/-! ### Failed bulk load is all-or-nothing -/

/-- C3: when any `incident_number` of the (well-typed) CSV file collides
with an existing row, the bulk-load statement fails with a
unique-constraint violation and the observable server state — the table
contents included — is exactly what it was before the load. -/
theorem copy_unique_violation_atomic (s : ServerState) (csv : List (List String))
    (newRows : List CrimeRow)
    (htab : ("crimes", "boston_crimes") ∈ s.tables)
    (hp : traverseOption parseCrimeRow (csv.drop 1) = some newRows)
    (hdup : ∃ r ∈ newRows, r.incident_number ∈ s.rows.map CrimeRow.incident_number) :
    execStmt s (.copyCsv "crimes" "boston_crimes" csv) = .error .uniqueViolation
    ∧ stateAfter s (.copyCsv "crimes" "boston_crimes" csv) = s := by
  have hnotnodup : ¬ ((s.rows ++ newRows).map CrimeRow.incident_number).Nodup := by
    intro hnd
    rw [List.map_append, List.nodup_append] at hnd
    obtain ⟨r, hr, hkey⟩ := hdup
    exact hnd.2.2 hkey (List.mem_map_of_mem CrimeRow.incident_number hr)
  have hload : copyLoad s.rows csv = .error .uniqueViolation := by
    simp only [copyLoad, hp]
    rw [if_neg hnotnodup]
  have hexec : execStmt s (.copyCsv "crimes" "boston_crimes" csv) = .error .uniqueViolation := by
    simp only [execStmt, hload]
    rw [if_pos htab]
  refine ⟨hexec, ?_⟩
  unfold stateAfter
  rw [hexec]

/-- Server state holding the already-loaded first data row, as after
the notebook's first successful load. -/
def loadedServer : ServerState :=
  { cleanServer with
      types := ["day_of_week"]
    , tables := [("crimes", "boston_crimes")]
    , rows := [sampleCrimeRow] }

/-- Witness for C3: re-loading the sample CSV into the already-loaded
table fails with a unique violation and changes nothing. -/
theorem copy_unique_violation_atomic_witness :
    execStmt loadedServer (.copyCsv "crimes" "boston_crimes" sampleCsv) =
      .error .uniqueViolation
    ∧ stateAfter loadedServer (.copyCsv "crimes" "boston_crimes" sampleCsv) = loadedServer :=
  copy_unique_violation_atomic loadedServer sampleCsv [sampleCrimeRow]
    (by decide) rfl (by decide)

/-! ### The enum type rejects values outside its labels -/

/-- C5: the enum type `day_of_week` is created with exactly the seven
weekday labels in Monday-first order, and a CSV row carrying any value
outside this closed set in the day-of-week position is rejected by the
load, whatever the other six fields are. -/
theorem day_of_week_enum_rejects (v : String) (hv : v ∉ dayOfWeekLabels) :
    dayOfWeekLabels =
      ["Monday", "Tuesday", "Wednesday", "Thursday", "Friday", "Saturday", "Sunday"]
    ∧ ∀ a b c d f g, parseCrimeRow [a, b, c, d, v, f, g] = none := by
  refine ⟨rfl, ?_⟩
  intro a b c d f g
  have hpd : parseDayOfWeek v = none := by
    unfold parseDayOfWeek
    rw [if_neg hv]
  simp only [parseCrimeRow, hpd]
  cases parseInt32 a <;> cases parseInt32 b <;> cases parseVarchar 58 c <;>
    cases parseDate d <;> cases parseNumeric f <;> cases parseNumeric g <;> rfl

/-- Witness for C5 at the label `"Funday"` in an otherwise well-typed
sample row. -/
theorem day_of_week_enum_rejects_witness :
    dayOfWeekLabels =
      ["Monday", "Tuesday", "Wednesday", "Thursday", "Friday", "Saturday", "Sunday"]
    ∧ parseCrimeRow
        ["1", "619", "LARCENY ALL OTHERS", "2018-09-02", "Funday",
         "42.35779134", "-71.13937053"] = none :=
  ⟨(day_of_week_enum_rejects "Funday" (by decide)).1,
   (day_of_week_enum_rejects "Funday" (by decide)).2
     "1" "619" "LARCENY ALL OTHERS" "2018-09-02" "42.35779134" "-71.13937053"⟩

/-! ### The verification SELECT returns the first row fully typed -/

lemma copyLoad_ok_shape {ex : List CrimeRow} {csv : List (List String)} {out : List CrimeRow}
    (h : copyLoad ex csv = .ok out) :
    ∃ newRows, traverseOption parseCrimeRow (csv.drop 1) = some newRows
      ∧ out = ex ++ newRows := by
  cases ht : traverseOption parseCrimeRow (csv.drop 1) with
  | none =>
    unfold copyLoad at h
    rw [ht] at h
    exact absurd h (by simp)
  | some newRows =>
    refine ⟨newRows, rfl, ?_⟩
    unfold copyLoad at h
    rw [ht] at h
    have h' : (if ((ex ++ newRows).map CrimeRow.incident_number).Nodup then
        Except.ok (ex ++ newRows) else Except.error DbError.uniqueViolation) =
        Except.ok out := h
    split at h'
    · injection h' with he
      exact he.symm
    · exact absurd h' (by simp)

lemma traverseOption_cons_some {f : α → Option β} {a : α} {l : List α} {out : List β}
    {b : β} (hb : f a = some b) (h : traverseOption f (a :: l) = some out) :
    ∃ bs, traverseOption f l = some bs ∧ out = b :: bs := by
  have h' : (match traverseOption f l with
             | none => (none : Option (List β))
             | some bs => some (b :: bs)) = some out := by
    rw [← h]
    simp only [traverseOption, hb]
  cases ht : traverseOption f l with
  | none => rw [ht] at h'; exact absurd h' (by simp)
  | some bs =>
    rw [ht] at h'
    injection h' with he
    exact ⟨bs, rfl, he.symm⟩

/-- C8: loading a CSV file whose first data row is the sample row
`1,619,LARCENY ALL OTHERS,2018-09-02,Sunday,42.35779134,-71.13937053`
into the empty table and then selecting the first five rows returns the
sample row first, fully typed: integers, the text description, the
calendar date 2018-09-02, the day label, and the exact fixed-point
decimals 42.35779134 and -71.13937053 (scaled integers of
hundred-millionths, not floating point). -/
theorem verify_first_row_typed (s s' : ServerState) (rest : List (List String))
    (hrows : s.rows = [])
    (h : execStmt s (.copyCsv "crimes" "boston_crimes"
          (headerRow :: sampleRowFields :: rest)) = .ok s') :
    (selectLimitRows s' 5).head? = some sampleCrimeRow
    ∧ sampleCrimeRow.date = ⟨2018, 9, 2⟩
    ∧ sampleCrimeRow.latitude = 4235779134
    ∧ sampleCrimeRow.longitude = -7113937053 := by
  refine ⟨?_, rfl, rfl, rfl⟩
  simp only [execStmt] at h
  split at h
  · rw [hrows] at h
    cases hcl : copyLoad [] (headerRow :: sampleRowFields :: rest) with
    | error e => rw [hcl] at h; exact absurd h (by simp)
    | ok out =>
      rw [hcl] at h
      have h2 : Except.ok { s with rows := out } = Except.ok s' := h
      injection h2 with h2'
      obtain ⟨newRows, ht, hout⟩ := copyLoad_ok_shape hcl
      obtain ⟨bs, _, hnew⟩ :=
        @traverseOption_cons_some (List String) CrimeRow parseCrimeRow
          sampleRowFields rest newRows sampleCrimeRow rfl ht
      subst h2'
      subst hout
      subst hnew
      simp [selectLimitRows]
  · exact absurd h (by simp)

/-- Witness for C8: the concrete two-row sample CSV loaded into the
freshly created table. -/
theorem verify_first_row_typed_witness :
    (selectLimitRows { preCopyServer with rows := [sampleCrimeRow] } 5).head? =
      some sampleCrimeRow
    ∧ sampleCrimeRow.date = ⟨2018, 9, 2⟩
    ∧ sampleCrimeRow.latitude = 4235779134
    ∧ sampleCrimeRow.longitude = -7113937053 :=
  verify_first_row_typed preCopyServer { preCopyServer with rows := [sampleCrimeRow] }
    [] rfl rfl

end CrimeDb
